import Mathlib

/-
Verification of the quickstart-boilerplate deployment pipeline orchestrator.

The definitions below are a shallow embedding of the TypeScript/CDK sources:
  - quickstart-pipeline.ts (QuickstartPipeline: source/branch selection,
    pipeline stage topology, action artifact bindings)
  - ecs-service.ts (EcsService: Fargate service configuration, circuit
    breaker, autoscaling targets)
  - project-buildspec.ts (apiProjectConfig, migrationProjectConfig: build
    tag derivation, imagedefinitions.json descriptor, migration
    concurrency limit)
  - quickstart-stack.ts (QuickstartStack: task environment, autoscaling
    parameters passed to EcsService)
Where the behaviour that decides a property lives in the cloud provider
rather than in this repository (CodeBuild concurrency limiting, the ECS
deployment circuit breaker, target-tracking autoscaling), a definition
is modelled from the spec and marked as such in its doc comment.
-/

namespace Quickstart

/-- Split a character list on hyphens (helper for pascalCase). -/
def splitOnDash : List Char → List (List Char)
  | [] => [[]]
  | c :: cs =>
    let rest := splitOnDash cs
    if c = '-' then [] :: rest
    else
      match rest with
      | [] => [[c]]
      | w :: ws => (c :: w) :: ws

/-- Capitalize the first character of a word (helper for pascalCase). -/
def capitalizeFirst : List Char → List Char
  | [] => []
  | c :: cs => c.toUpper :: cs

/-- Embedding of the pascal-case library call used for action and project
names: split a hyphenated identifier and capitalize each component. -/
def pascalCase (s : String) : String :=
  String.mk (((splitOnDash s.toList).map capitalizeFirst).flatten)

/-- Lookup in a string-keyed record represented as an association list
(embedding of JS object property access on Record types). -/
def lookupString (m : List (String × String)) (k : String) : Option String :=
  (m.find? (fun p => p.1 == k)).map Prod.snd

/-- Embedding of QuickstartPipeline.environmentBranchMapping
(quickstart-pipeline.ts): the static environment-to-branch table. -/
def environmentBranchMapping : List (String × String) :=
  [("dev", "dev"), ("test", "test"), ("prod", "main")]

/-- Embedding of the branch selection in QuickstartPipeline.buildSourceAction:
`environmentBranchMapping[environmentName] || environmentName`. JS `||`
falls through to the environment name when the table entry is absent or is
the (falsy) empty string. -/
def branchFor (environmentName : String) : String :=
  match lookupString environmentBranchMapping environmentName with
  | some b => if b == "" then environmentName else b
  | none => environmentName

/-- Value of a decimal digit character, none on non-digits. -/
def decDigitVal (c : Char) : Option Nat :=
  if c.isDigit then some (c.toNat - 48) else none

/-- Value of a hexadecimal digit character, none on non-hex-digits. -/
def hexDigitVal (c : Char) : Option Nat :=
  if c.isDigit then some (c.toNat - 48)
  else if 'a' ≤ c && c ≤ 'f' then some (c.toNat - 87)
  else if 'A' ≤ c && c ≤ 'F' then some (c.toNat - 55)
  else none

/-- Parse the longest valid digit run at the head of a character list in the
given base; none when no leading digit is valid (JS parseInt returns NaN). -/
def parseDigitRun (base : Nat) (digitVal : Char → Option Nat) (cs : List Char) :
    Option Int :=
  let ds := cs.takeWhile (fun c => (digitVal c).isSome)
  if ds.isEmpty then none
  else some (Int.ofNat (ds.foldl (fun a c => a * base + (digitVal c).getD 0) 0))

/-- Model of the JavaScript parseInt builtin as used in ecs-service.ts:
skip leading whitespace, optional sign, a 0x/0X prefix selects base 16,
otherwise base 10; the longest valid digit run is parsed and NaN (here:
none) results when no digit is valid. -/
def parseIntJS (s : String) : Option Int :=
  let cs := s.toList.dropWhile (fun c => c.isWhitespace)
  let signed : Int × List Char :=
    match cs with
    | '-' :: rest => (-1, rest)
    | '+' :: rest => (1, rest)
    | _ => (1, cs)
  match signed.2 with
  | '0' :: 'x' :: rest => (parseDigitRun 16 hexDigitVal rest).map (signed.1 * ·)
  | '0' :: 'X' :: rest => (parseDigitRun 16 hexDigitVal rest).map (signed.1 * ·)
  | rest => (parseDigitRun 10 decDigitVal rest).map (signed.1 * ·)

/-- Embedding of the AutoScalingConfig interface of ecs-service.ts: every
field is optional. -/
structure AutoScalingConfig where
  maxCapacity : Option Nat := none
  minCapacity : Option Nat := none
  cpuTargetUtilizationPercent : Option Nat := none
  ramTargetUtilizationPercent : Option Nat := none
deriving Repr, DecidableEq

/-- The Fargate service configuration assembled by EcsService.buildEcsService
(ecs-service.ts). containerPort is an Option Int because the JS expression
`parseInt(PORT)` may evaluate to NaN (modelled as none). -/
structure FargateServiceConfig where
  assignPublicIp : Bool
  cpu : Nat
  memoryLimitMiB : Nat
  circuitBreakerRollback : Bool
  redirectHTTP : Bool
  containerPort : Option Int
  containerEnvironment : List (String × String)
deriving Repr, DecidableEq

/-- Embedding of EcsService.buildEcsService (ecs-service.ts): the literal
property values passed to ApplicationLoadBalancedFargateService. The
container port is `taskEnvironment.PORT ? parseInt(taskEnvironment.PORT) :
4000`; JS truthiness sends both a missing PORT entry and an empty-string
PORT entry to the 4000 default. -/
def buildEcsService (taskEnvironment : List (String × String)) :
    FargateServiceConfig :=
  { assignPublicIp := false
    cpu := 1024
    memoryLimitMiB := 2048
    circuitBreakerRollback := true
    redirectHTTP := true
    containerPort :=
      match lookupString taskEnvironment "PORT" with
      | some s => if s == "" then some 4000 else parseIntJS s
      | none => some 4000
    containerEnvironment := taskEnvironment }

/-- The resolved autoscaling parameters produced by
EcsService.configureServiceAutoscaling. -/
structure ScalingSetup where
  maxCapacity : Nat
  minCapacity : Nat
  cpuTarget : Nat
  ramTarget : Nat
deriving Repr, DecidableEq

/-- Embedding of EcsService.configureServiceAutoscaling (ecs-service.ts):
destructuring defaults maxCapacity = 4, minCapacity = 1, both utilization
targets 50; one CPU scaling policy and one memory scaling policy are
attached to the same scalable target. -/
def configureServiceAutoscaling (cfg : AutoScalingConfig) : ScalingSetup :=
  { maxCapacity := cfg.maxCapacity.getD 4
    minCapacity := cfg.minCapacity.getD 1
    cpuTarget := cfg.cpuTargetUtilizationPercent.getD 50
    ramTarget := cfg.ramTargetUtilizationPercent.getD 50 }

/-- Embedding of the autoscalingConfig literal passed by
QuickstartStack.buildEcsService (quickstart-stack.ts). -/
def quickstartAutoscalingConfig : AutoScalingConfig :=
  { maxCapacity := some 4
    minCapacity := some 1
    cpuTargetUtilizationPercent := some 50
    ramTargetUtilizationPercent := some 50 }

/-- Embedding of the taskEnvironment literal of
QuickstartStack.buildEcsService (quickstart-stack.ts). -/
def quickstartTaskEnvironment (serviceName environmentName : String) :
    List (String × String) :=
  [("NAME", serviceName), ("NODE_ENV", environmentName),
   ("ADDRESS", "0.0.0.0"), ("PORT", "4000"), ("NO_COLOR", "true")]

/-- CodeBuild environment variable kinds used in project-buildspec.ts. -/
inductive BuildEnvVarType
  | plaintext
  | secretsManager
deriving Repr, DecidableEq

/-- A CodeBuild environment variable entry: name, value (for
secretsManager entries the value is the secret reference), and kind. -/
structure BuildEnvVar where
  name : String
  value : String
  varType : BuildEnvVarType
deriving Repr, DecidableEq

/-- Embedding of the MigrationProjectConfigProps interface of
project-buildspec.ts (construct references reduced to their identifying
strings). -/
structure MigrationProjectConfigProps where
  id : String
  environmentName : String
  databaseCredentialsSecretArn : String
  sourcePath : String
deriving Repr, DecidableEq

/-- The CodeBuild project configuration returned by migrationProjectConfig. -/
structure MigrationProjectConfig where
  projectName : String
  checkSecretsInPlainTextEnvVariables : Bool
  concurrentBuildLimit : Nat
  description : String
  environmentVariables : List BuildEnvVar
  buildCommands : List String
  postBuildCommands : List String
deriving Repr, DecidableEq

/-- Embedding of migrationProjectConfig (project-buildspec.ts): the
migration CodeBuild project sets concurrentBuildLimit to 1 and pulls the
database connection parameters from Secrets Manager references. -/
def migrationProjectConfig (p : MigrationProjectConfigProps) :
    MigrationProjectConfig :=
  { projectName := pascalCase (p.id ++ "-migration-build")
    checkSecretsInPlainTextEnvVariables := true
    concurrentBuildLimit := 1
    description := "CodeBuild project to perform DB migrations on the Application DB"
    environmentVariables :=
      [⟨"CDK_ENV", p.environmentName, .plaintext⟩,
       ⟨"PGUSER", p.databaseCredentialsSecretArn ++ ":username", .secretsManager⟩,
       ⟨"PGHOST", p.databaseCredentialsSecretArn ++ ":host", .secretsManager⟩,
       ⟨"PGPORT", p.databaseCredentialsSecretArn ++ ":port", .secretsManager⟩,
       ⟨"PGDATABASE", p.databaseCredentialsSecretArn ++ ":dbname", .secretsManager⟩,
       ⟨"PGPASSWORD", p.databaseCredentialsSecretArn ++ ":password", .secretsManager⟩]
    buildCommands := ["yarn build"]
    postBuildCommands := ["yarn migrate:run", "echo Build completed at `date`"] }

/-- Embedding of the ApiProjectConfigParams interface of
project-buildspec.ts. -/
structure ApiProjectConfigParams where
  id : String
  clusterName : String
  environmentName : String
  repositoryName : String
  repositoryUri : String
  serviceName : String
  sourcePath : String
deriving Repr, DecidableEq

/-- The parts of the CodeBuild project configuration returned by
apiProjectConfig that the pipeline properties depend on. -/
structure ApiProjectConfig where
  projectName : String
  environmentVariables : List BuildEnvVar
  artifactFiles : List String
  artifactBaseDirectory : String
deriving Repr, DecidableEq

/-- Embedding of apiProjectConfig (project-buildspec.ts): the API build
project; its buildspec artifact is the single file imagedefinitions.json
produced in the source path. -/
def apiProjectConfig (p : ApiProjectConfigParams) : ApiProjectConfig :=
  { projectName := pascalCase (p.id ++ "-api-build")
    environmentVariables :=
      [⟨"CLUSTER_NAME", p.clusterName, .plaintext⟩,
       ⟨"ECR_REPO_URI", p.repositoryUri, .plaintext⟩]
    artifactFiles := ["imagedefinitions.json"]
    artifactBaseDirectory := p.sourcePath }

/-- Embedding of the tag derivation in the apiProjectConfig buildspec
pre_build phase: `TAG=$(echo $CODEBUILD_RESOLVED_SOURCE_VERSION | cut -c 1-9)`
takes the first nine characters of the resolved source revision. -/
def buildTag (resolvedSourceVersion : String) : String :=
  resolvedSourceVersion.take 9

/-- Embedding of the image reference pushed by the apiProjectConfig build
phase: `docker build -t $ECR_REPO_URI:$TAG` followed by
`docker push $ECR_REPO_URI:$TAG`. -/
def builtImageUri (repositoryUri resolvedSourceVersion : String) : String :=
  repositoryUri ++ ":" ++ buildTag resolvedSourceVersion

/-- Embedding of the imagedefinitions.json descriptor written by the
apiProjectConfig post_build printf: a one-element JSON array whose single
record has a "name" field holding the service name and an "imageUri"
field holding the pushed image reference. Each record is represented as
an association list of its fields in order. -/
def imageDefinitions (serviceName imageUri : String) :
    List (List (String × String)) :=
  [[("name", serviceName), ("imageUri", imageUri)]]

/-- The two pipeline artifacts declared by QuickstartPipeline
(quickstart-pipeline.ts): sourceArtifact and buildArtifact. -/
inductive ArtifactRef
  | sourceArtifact
  | buildArtifact
deriving Repr, DecidableEq

/-- A pipeline action as bound into the CodePipeline stages: its action
name, the artifacts it consumes and produces, and its runOrder. No
action in quickstart-pipeline.ts sets runOrder, so every action carries
the CodePipeline default of 1; actions of a stage that share a runOrder
execute concurrently with no ordering between them. -/
structure PipelineAction where
  actionName : String
  inputs : List ArtifactRef
  outputs : List ArtifactRef
  runOrder : Nat := 1
deriving Repr, DecidableEq

/-- A pipeline stage: name plus its actions. -/
structure PipelineStage where
  stageName : String
  actions : List PipelineAction
deriving Repr, DecidableEq

instance : Inhabited PipelineStage := ⟨⟨"", []⟩⟩

/-- Embedding of QuickstartPipeline.buildSourceAction: the GitHub source
action emits the source artifact. -/
def sourceAction : PipelineAction :=
  { actionName := pascalCase "source-action"
    inputs := []
    outputs := [.sourceArtifact] }

/-- Embedding of QuickstartPipeline.buildInfrastructureAction: consumes the
source artifact, produces no pipeline artifact. -/
def infrastructureAction : PipelineAction :=
  { actionName := pascalCase "infrastructure-action"
    inputs := [.sourceArtifact]
    outputs := [] }

/-- Embedding of QuickstartPipeline.buildApiAction: consumes the source
artifact and produces the build artifact. -/
def apiAction : PipelineAction :=
  { actionName := pascalCase "build-api-action"
    inputs := [.sourceArtifact]
    outputs := [.buildArtifact] }

/-- Embedding of QuickstartPipeline.buildMigrationAction: consumes the
source artifact, produces no pipeline artifact. -/
def migrationAction : PipelineAction :=
  { actionName := pascalCase "run-migrations-action"
    inputs := [.sourceArtifact]
    outputs := [] }

/-- Embedding of QuickstartPipeline.buildDeployApiAction: the ECS deploy
action; its only input is the imageFile path imagedefinitions.json inside
the build artifact. -/
def deployApiAction : PipelineAction :=
  { actionName := pascalCase "deploy-api-action"
    inputs := [.buildArtifact]
    outputs := [] }

/-- The imageFile consumed by the deploy action: the named file within the
named artifact (ArtifactPath in quickstart-pipeline.ts). -/
def deployApiImageFile : ArtifactRef × String :=
  (.buildArtifact, "imagedefinitions.json")

/-- Embedding of the stage list constructed by
QuickstartPipeline.buildPipeline: four stages in order, with the deploy
and migration actions as siblings of the final stage. The topology does
not depend on the environment or the stack properties. -/
def buildPipeline : List PipelineStage :=
  [{ stageName := "CheckoutSource", actions := [sourceAction] },
   { stageName := "DeployInfrastructure", actions := [infrastructureAction] },
   { stageName := "BuildAPI", actions := [apiAction] },
   { stageName := "DeployAPI", actions := [deployApiAction, migrationAction] }]

/-- Indices of the stages whose action list contains an action of the given
name. -/
def stagesContaining (stages : List PipelineStage) (actionName : String) :
    List Nat :=
  (List.range stages.length).filter
    (fun i => ((stages.getD i default).actions).any
      (fun a => a.actionName == actionName))

/-- Whether every input artifact of every action of stage i was produced by
some action of a strictly earlier stage. -/
def producedEarlier (stages : List PipelineStage) (i : Nat) (r : ArtifactRef) :
    Bool :=
  (List.range i).any
    (fun j => ((stages.getD j default).actions).any
      (fun b => b.outputs.contains r))

/-- The construction-time artifact-flow invariant: no action consumes an
artifact that is not produced in a strictly earlier stage (no forward or
same-stage references). -/
def noForwardRefs (stages : List PipelineStage) : Bool :=
  (List.range stages.length).all
    (fun i => ((stages.getD i default).actions).all
      (fun a => a.inputs.all (fun r => producedEarlier stages i r)))

/-- Modelled from the spec: the CodeBuild concurrent-build limiter that
enforces concurrentBuildLimit (the limiter itself is provider behaviour,
not repository code). A start attempt while `active` builds are running
is admitted only when active < limit; otherwise it fails immediately with
a conflict error instead of being queued. -/
def startBuild (limit active : Nat) : Except String Unit :=
  if active < limit then Except.ok () else Except.error "MigrationConflict"

/-- Modelled from the spec: the service runtime state mutated by deploys
(ServiceRuntime.currentImageRef). -/
structure ServiceRuntime where
  currentImageRef : String
deriving Repr, DecidableEq

/-- Modelled from the spec: the outcome of one deploy rollout under the ECS
deployment circuit breaker (provider behaviour; the repository enables it
via circuitBreaker.rollback = true). When the health checks pass within
the bounded window the new image reference becomes current; when they do
not and rollback is enabled, the runtime is rolled back to the pre-deploy
reference; without rollback the failed rollout leaves the new reference
in place. -/
def applyDeploy (rollbackEnabled healthy : Bool) (s : ServiceRuntime)
    (imageRef : String) : ServiceRuntime :=
  if healthy then { currentImageRef := imageRef }
  else if rollbackEnabled then s
  else { currentImageRef := imageRef }

/-- Modelled from the spec: a target-tracking control loop recommendation,
the smallest task count whose projected utilization is at or below the
target, i.e. the ceiling of current x utilization / target. -/
def loopRecommendation (current utilization target : Nat) : Nat :=
  (current * utilization + (target - 1)) / target

/-- Modelled from the spec: the effective desired count with two
independent target-tracking loops is the maximum recommendation across
the loops, clamped into the configured capacity bounds. -/
def effectiveDesiredCount (setup : ScalingSetup)
    (current cpuUtilization memUtilization : Nat) : Nat :=
  max setup.minCapacity
    (min setup.maxCapacity
      (max (loopRecommendation current cpuUtilization setup.cpuTarget)
           (loopRecommendation current memUtilization setup.ramTarget)))

/-- A target-tracking loop recommendation is monotone in the observed
utilization (helper for the autoscaling claim). -/
theorem loopRecommendation_mono_utilization (current u1 u2 target : Nat)
    (h : u1 ≤ u2) :
    loopRecommendation current u1 target ≤ loopRecommendation current u2 target := by
  unfold loopRecommendation
  exact Nat.div_le_div_right
    (Nat.add_le_add_right (Nat.mul_le_mul_left current h) _)

/-- C1: in the pipeline constructed by QuickstartPipeline.buildPipeline the
migration action sits in stage 3, at or after stage 2 holding the build
action that produces the deployable build artifact, and within stage 3 it
is an unordered sibling of the deploy action: both carry the default
runOrder 1, and CodePipeline runs equal-runOrder actions of a stage
concurrently, so the deploy may begin before the migration completes. -/
theorem c1_migration_unordered_sibling_of_deploy :
    stagesContaining buildPipeline apiAction.actionName = [2] ∧
    stagesContaining buildPipeline migrationAction.actionName = [3] ∧
    stagesContaining buildPipeline deployApiAction.actionName = [3] ∧
    2 ≤ 3 ∧
    apiAction.outputs = [ArtifactRef.buildArtifact] ∧
    deployApiAction.inputs = [ArtifactRef.buildArtifact] ∧
    migrationAction.runOrder = deployApiAction.runOrder := by decide

/-- C2: for every environment the migration CodeBuild project is configured
with concurrentBuildLimit = 1, and under the (spec-modelled) concurrency
limiter a migration attempt with no active build proceeds while an
attempt concurrent with any active build is rejected immediately with a
conflict error rather than queued. -/
theorem c2_migration_concurrency_limit_one (p : MigrationProjectConfigProps) :
    (migrationProjectConfig p).concurrentBuildLimit = 1 ∧
    startBuild (migrationProjectConfig p).concurrentBuildLimit 0 =
      Except.ok () ∧
    (∀ active : Nat,
      startBuild (migrationProjectConfig p).concurrentBuildLimit (active + 1) =
        Except.error "MigrationConflict") := by
  refine ⟨rfl, rfl, ?_⟩
  intro active
  show startBuild 1 (active + 1) = Except.error "MigrationConflict"
  unfold startBuild
  rw [if_neg (by omega)]

/-- C3: the Fargate service built by EcsService.buildEcsService enables the
deployment circuit breaker with automatic rollback for every task
environment, and under the (spec-modelled) rollout semantics with
rollback enabled a healthy rollout leaves the deployed image reference
current while a failed rollout restores the pre-deploy runtime state. -/
theorem c3_circuit_breaker_rollback (taskEnvironment : List (String × String)) :
    (buildEcsService taskEnvironment).circuitBreakerRollback = true ∧
    (∀ (s : ServiceRuntime) (imageRef : String),
      applyDeploy true true s imageRef = { currentImageRef := imageRef }) ∧
    (∀ (s : ServiceRuntime) (imageRef : String),
      applyDeploy true false s imageRef = s) :=
  ⟨rfl, fun _ _ => rfl, fun _ _ => rfl⟩

/-- C4: the quickstart autoscaling configuration resolves to two loops with
target 50 each and capacity bounds min 1, max 4; for every current task
count the memory recommendation at 30 percent never exceeds the CPU
recommendation at 80 percent, the effective desired count equals the CPU
recommendation clamped into the bounds, and at current count 3 the
clamped result is the maximum capacity 4. -/
theorem c4_autoscaling_max_of_loops :
    configureServiceAutoscaling quickstartAutoscalingConfig =
      { maxCapacity := 4, minCapacity := 1, cpuTarget := 50, ramTarget := 50 } ∧
    (∀ current : Nat,
      loopRecommendation current 30 50 ≤ loopRecommendation current 80 50) ∧
    (∀ current : Nat,
      effectiveDesiredCount
        (configureServiceAutoscaling quickstartAutoscalingConfig) current 80 30 =
        max 1 (min 4 (loopRecommendation current 80 50))) ∧
    effectiveDesiredCount
      (configureServiceAutoscaling quickstartAutoscalingConfig) 3 80 30 = 4 := by
  refine ⟨rfl, ?_, ?_, by decide⟩
  · intro current
    exact loopRecommendation_mono_utilization current 30 80 50 (by omega)
  · intro current
    show max 1 (min 4 (max (loopRecommendation current 80 50)
        (loopRecommendation current 30 50))) =
      max 1 (min 4 (loopRecommendation current 80 50))
    rw [Nat.max_eq_left
      (loopRecommendation_mono_utilization current 30 80 50 (by omega))]

/-- C5: the source branch selected at pipeline instantiation is determined
by the static environment-to-branch table, and every environment name
without a table entry falls back to itself as the branch name. -/
theorem c5_branch_table_with_identity_fallback :
    (∀ env b, lookupString environmentBranchMapping env = some b →
      branchFor env = b) ∧
    (∀ env, lookupString environmentBranchMapping env = none →
      branchFor env = env) := by
  constructor
  · intro env b h
    have hb : b ≠ "" := by
      unfold lookupString at h
      obtain ⟨pair, hfind, hsnd⟩ := Option.map_eq_some'.mp h
      have hmem : pair ∈ environmentBranchMapping :=
        List.mem_of_find?_eq_some hfind
      subst hsnd
      fin_cases hmem <;> decide
    unfold branchFor
    rw [h]
    simp [hb]
  · intro env h
    unfold branchFor
    rw [h]

/-- Concrete instantiation of the branch-selection theorem: the mapped
environment prod and the unmapped environment staging. -/
theorem c5_branch_table_with_identity_fallback_witness :
    branchFor "prod" = "main" ∧ branchFor "staging" = "staging" :=
  ⟨c5_branch_table_with_identity_fallback.1 "prod" "main" (by decide),
   c5_branch_table_with_identity_fallback.2 "staging" (by decide)⟩

/-- C6 counterexample: the descriptor record written to
imagedefinitions.json has no field named serviceName; the service name
travels under the field name "name". -/
theorem c6_counterexample :
    lookupString ((imageDefinitions "quickstart" "registry/svc:abc123def").headD [])
      "serviceName" = none ∧
    lookupString ((imageDefinitions "quickstart" "registry/svc:abc123def").headD [])
      "name" = some "quickstart" := by decide

/-- C6 amended: the artifact descriptor crossing the Build-to-Deploy
boundary is a one-element array of a record whose fields are "name"
(holding the service name) and "imageUri" (holding the image reference);
the imagedefinitions.json file of the build artifact is the sole payload
consumed by the deploy action, and it is the sole file of the build
artifact. -/
theorem c6_descriptor_fields (p : ApiProjectConfigParams)
    (serviceName imageUri : String) :
    (imageDefinitions serviceName imageUri).map (fun r => r.map Prod.fst) =
      [["name", "imageUri"]] ∧
    lookupString ((imageDefinitions serviceName imageUri).headD []) "name" =
      some serviceName ∧
    lookupString ((imageDefinitions serviceName imageUri).headD []) "imageUri" =
      some imageUri ∧
    deployApiAction.inputs = [ArtifactRef.buildArtifact] ∧
    deployApiImageFile = (ArtifactRef.buildArtifact, "imagedefinitions.json") ∧
    (apiProjectConfig p).artifactFiles = ["imagedefinitions.json"] :=
  ⟨rfl, rfl, rfl, rfl, rfl, rfl⟩

/-- C7 counterexample: the build tag is only the first nine characters of
the resolved source revision, so the two distinct revisions abc123def0
and abc123def1 carry the same tag, refuting that builds of different
revisions always carry different tags. -/
theorem c7_counterexample :
    buildTag "abc123def0" = buildTag "abc123def1" ∧
    "abc123def0" ≠ "abc123def1" := by decide

/-- C7 amended: the build tag is determined by exactly the first nine
characters of the source revision: revisions agreeing there share a tag
and revisions differing there carry different tags; for the revision
abc123def the pushed image reference is the repository URI suffixed with
the tag abc123def. -/
theorem c7_tag_from_source_revision :
    (∀ rev1 rev2 : String, rev1.take 9 = rev2.take 9 →
      buildTag rev1 = buildTag rev2) ∧
    (∀ rev1 rev2 : String, rev1.take 9 ≠ rev2.take 9 →
      buildTag rev1 ≠ buildTag rev2) ∧
    buildTag "abc123def" = "abc123def" ∧
    builtImageUri "registry/svc" "abc123def" = "registry/svc:abc123def" ∧
    List.isSuffixOf (":" ++ buildTag "abc123def").toList
      (builtImageUri "registry/svc" "abc123def").toList = true := by
  refine ⟨?_, ?_, by decide, by decide, by decide⟩
  · intro rev1 rev2 h
    exact h
  · intro rev1 rev2 h hc
    exact h hc

/-- Concrete instantiation of the tag-derivation theorem: agreement and
disagreement within the first nine characters of two revisions. -/
theorem c7_tag_from_source_revision_witness :
    buildTag "abc123def0" = buildTag "abc123defX" ∧
    buildTag "abc123def" ≠ buildTag "000000000" :=
  ⟨c7_tag_from_source_revision.1 "abc123def0" "abc123defX" (by decide),
   c7_tag_from_source_revision.2.1 "abc123def" "000000000" (by decide)⟩

/-- C8: in the constructed pipeline every artifact an action consumes is
produced by an action of a strictly earlier stage; the source artifact is
produced by the source action in the first stage and the build artifact
is produced in the build stage and consumed in the later deploy stage. -/
theorem c8_no_forward_artifact_refs :
    noForwardRefs buildPipeline = true ∧
    stagesContaining buildPipeline sourceAction.actionName = [0] ∧
    sourceAction.outputs = [ArtifactRef.sourceArtifact] ∧
    stagesContaining buildPipeline apiAction.actionName = [2] ∧
    stagesContaining buildPipeline deployApiAction.actionName = [3] := by decide

/-- C9: the static environment-to-branch table maps dev to dev and test to
test but prod to main, so a pipeline instantiated for prod checks out the
main branch rather than a branch named prod. -/
theorem c9_branch_table_entries :
    branchFor "dev" = "dev" ∧
    branchFor "test" = "test" ∧
    branchFor "prod" = "main" ∧
    lookupString environmentBranchMapping "prod" = some "main" ∧
    branchFor "prod" ≠ "prod" := by decide

/-- C10 counterexample: a task environment defining PORT as the empty
string defines a PORT entry, yet the container port is the 4000 default
(the JS truthiness test discards the empty entry) while parseInt of the
entry is NaN, refuting that the port always equals the parsed entry. -/
theorem c10_counterexample :
    lookupString [("PORT", "")] "PORT" = some "" ∧
    (buildEcsService [("PORT", "")]).containerPort = some 4000 ∧
    parseIntJS "" = none ∧
    (buildEcsService [("PORT", "")]).containerPort ≠ parseIntJS "" := by decide

/-- C10 amended: when the task environment defines a non-empty PORT entry
the container port equals that entry parsed as an integer by parseInt;
when no PORT entry is present, or the entry is the empty string, the
container port defaults to 4000; in particular the quickstart task
environment pins PORT to 4000. -/
theorem c10_container_port (taskEnvironment : List (String × String)) :
    (∀ s, lookupString taskEnvironment "PORT" = some s → s ≠ "" →
      (buildEcsService taskEnvironment).containerPort = parseIntJS s) ∧
    (lookupString taskEnvironment "PORT" = none →
      (buildEcsService taskEnvironment).containerPort = some 4000) ∧
    (lookupString taskEnvironment "PORT" = some "" →
      (buildEcsService taskEnvironment).containerPort = some 4000) ∧
    (∀ svc env,
      (buildEcsService (quickstartTaskEnvironment svc env)).containerPort =
        some 4000) := by
  refine ⟨?_, ?_, ?_, fun svc env => rfl⟩
  · intro s h hs
    show (match lookupString taskEnvironment "PORT" with
      | some s => if s == "" then some 4000 else parseIntJS s
      | none => some 4000) = parseIntJS s
    rw [h]
    simp [hs]
  · intro h
    show (match lookupString taskEnvironment "PORT" with
      | some s => if s == "" then some 4000 else parseIntJS s
      | none => some 4000) = some 4000
    rw [h]
  · intro h
    show (match lookupString taskEnvironment "PORT" with
      | some s => if s == "" then some 4000 else parseIntJS s
      | none => some 4000) = some 4000
    rw [h]
    decide

/-- Concrete instantiation of the container-port theorem: an explicit
non-empty PORT entry, an absent entry, and an empty entry. -/
theorem c10_container_port_witness :
    (buildEcsService [("PORT", "8080")]).containerPort = parseIntJS "8080" ∧
    (buildEcsService [("NAME", "svc")]).containerPort = some 4000 ∧
    (buildEcsService [("PORT", "")]).containerPort = some 4000 :=
  ⟨(c10_container_port [("PORT", "8080")]).1 "8080" (by decide) (by decide),
   (c10_container_port [("NAME", "svc")]).2.1 (by decide),
   (c10_container_port [("PORT", "")]).2.2.1 (by decide)⟩

end Quickstart
